import Mathlib

/-!
Verification development for the lambda_scraper repository.

The Python source (src/lambda_function.py) is shallowly embedded below:
pure helpers become Lean functions over `List Char` (Python strings are
sequences of code points, so `String.data` is the faithful carrier),
network fetches become an oracle `Nat → FetchResult` giving the outcome of
each attempt of the retry loop, raised exceptions become `Except PyExn`
values consumed by an explicit model of the except-clause chain, and
`time.sleep` calls are logged as the (lo, hi) second bounds passed to
`random.uniform` at the corresponding source line.
-/

/-! ### Python string primitives over `List Char` -/

/-- Python `str` truthiness for an optional string value: `None` and the
empty string are falsy. -/
def pyTruthy : Option String → Bool
  | none => false
  | some s => !(s == "")

/-- The whitespace class used by Python `str.strip` / `str.split`
(ASCII subset: space, tab, newline, carriage return, vertical tab,
form feed). -/
def pyIsSpace (c : Char) : Bool :=
  c == ' ' || c == '\t' || c == '\n' || c == '\r' || c == '\x0b' || c == '\x0c'

/-- Drop leading characters satisfying `pyIsSpace`. -/
def dropSpaceLeft (cs : List Char) : List Char :=
  cs.dropWhile pyIsSpace

/-- Python `str.strip()` on a character list. -/
def pyStripChars (cs : List Char) : List Char :=
  ((dropSpaceLeft cs).reverse.dropWhile pyIsSpace).reverse

/-- Rebuild a `String` from characters. -/
def strOfChars (cs : List Char) : String :=
  String.mk cs

/-- Python `str.strip()`. -/
def pyStrip (s : String) : String :=
  strOfChars (pyStripChars s.data)

/-- Python `len` on a string (number of code points). -/
def strLen (s : String) : Nat :=
  s.data.length

/-- Python slice `s[:n]`. -/
def strTake (s : String) (n : Nat) : String :=
  strOfChars (s.data.take n)

/-- Python `str.lower()` (ASCII letters, which is all the source uses). -/
def strLower (s : String) : String :=
  strOfChars (s.data.map Char.toLower)

/-- Python `str.startswith(pre)`. -/
def strStartsWith (s pre : String) : Bool :=
  List.isPrefixOf pre.data s.data

/-- Substring occurrence in a character list. -/
def listContainsSub (pat : List Char) : List Char → Bool
  | [] => List.isPrefixOf pat []
  | c :: cs => List.isPrefixOf pat (c :: cs) || listContainsSub pat cs

/-- Python `pat in s` for strings. -/
def pyIn (pat s : String) : Bool :=
  listContainsSub pat.data s.data

/-- Split at every occurrence of a single separator character
(Python `str.split(sep)` for a one-character separator: keeps empty
pieces, as Python does). -/
def splitOnChar (sep : Char) : List Char → List Char → List (List Char)
  | [], acc => [acc.reverse]
  | c :: cs, acc =>
    if c == sep then acc.reverse :: splitOnChar sep cs []
    else splitOnChar sep cs (c :: acc)

/-- Python `str.splitlines()` over characters: split at `\n`, `\r`,
`\r\n`; no trailing empty piece for a trailing terminator.  (Python also
treats a few rare Unicode terminators as line breaks; the source never
feeds those.) -/
def splitLinesChars : List Char → List Char → List (List Char)
  | [], acc => if acc.isEmpty then [] else [acc.reverse]
  | '\r' :: '\n' :: cs, acc => acc.reverse :: splitLinesChars cs []
  | '\r' :: cs, acc => acc.reverse :: splitLinesChars cs []
  | '\n' :: cs, acc => acc.reverse :: splitLinesChars cs []
  | c :: cs, acc => splitLinesChars cs (c :: acc)

/-- Python `line.split("  ")`: split at each non-overlapping occurrence of
two consecutive spaces, scanning left to right. -/
def splitTwoSpace : List Char → List Char → List (List Char)
  | [], acc => [acc.reverse]
  | ' ' :: ' ' :: cs, acc => acc.reverse :: splitTwoSpace cs []
  | c :: cs, acc => splitTwoSpace cs (c :: acc)

/-- Python `str.split()` (no argument): whitespace-delimited tokens,
empty tokens discarded. -/
def wordsChars : List Char → List Char → List (List Char)
  | [], acc => if acc.isEmpty then [] else [acc.reverse]
  | c :: cs, acc =>
    if pyIsSpace c then
      if acc.isEmpty then wordsChars cs [] else acc.reverse :: wordsChars cs []
    else wordsChars cs (c :: acc)

/-- `len(s.split())` from the source (word count of the cleaned text). -/
def pyWordCount (s : String) : Nat :=
  (wordsChars s.data []).length

/-- Python `int(s)`: strip surrounding whitespace, optional sign, decimal
digits.  Returns `none` where Python raises `ValueError`.  (Python also
accepts `_` digit group separators; the handler inputs never carry
them.) -/
def digitsToNat? (ds : List Char) : Option Nat :=
  if ds.isEmpty then none
  else if ds.all Char.isDigit then
    some (ds.foldl (fun acc c => acc * 10 + (c.toNat - '0'.toNat)) 0)
  else none

/-- See `digitsToNat?`; the optional-sign wrapper of Python `int`. -/
def pyInt? (s : String) : Option Int :=
  match pyStripChars s.data with
  | '+' :: ds => (digitsToNat? ds).map Int.ofNat
  | '-' :: ds => (digitsToNat? ds).map (fun n => -(n : Int))
  | ds => (digitsToNat? ds).map Int.ofNat

/-! ### `urllib.parse.urlparse`, restricted to the fields the source reads -/

/-- The components of `urllib.parse.urlparse` that the source consumes. -/
structure UrlParts where
  scheme : String
  netloc : String
  path : String
  query : String
  fragment : String
deriving DecidableEq, Repr

/-- Characters allowed after the first position of a URL scheme. -/
def isSchemeChar (c : Char) : Bool :=
  c.isAlpha || c.isDigit || c == '+' || c == '-' || c == '.'

/-- Split a character list at the first occurrence of `sep`; `none` when
absent. -/
def splitFirstChar (sep : Char) : List Char → Option (List Char × List Char)
  | [] => none
  | c :: cs =>
    if c == sep then some ([], cs)
    else (splitFirstChar sep cs).map (fun p => (c :: p.1, p.2))

/-- Take the longest non-stopping head segment and the rest. -/
def breakAt (stop : Char → Bool) (cs : List Char) : List Char × List Char :=
  (cs.takeWhile (fun c => !(stop c)), cs.dropWhile (fun c => !(stop c)))

/-- Model of `urllib.parse.urlparse`: scheme before a `:` whose prefix is
alphanumeric-ish and starts with a letter (lowercased); netloc after
`//` up to `/`, `?` or `#`; then fragment after `#`, query after `?`,
path before both. -/
def urlparse (s : String) : UrlParts :=
  let cs := s.data
  let schemeRest : List Char × List Char :=
    match splitFirstChar ':' cs with
    | some (pre, post) =>
      match pre with
      | [] => ([], cs)
      | c0 :: _ =>
        if c0.isAlpha && pre.all isSchemeChar then (pre.map Char.toLower, post)
        else ([], cs)
    | none => ([], cs)
  let netlocRest : List Char × List Char :=
    match schemeRest.2 with
    | '/' :: '/' :: r => breakAt (fun c => c == '/' || c == '?' || c == '#') r
    | r => ([], r)
  let fragSplit : List Char × List Char :=
    match splitFirstChar '#' netlocRest.2 with
    | some (a, b) => (a, b)
    | none => (netlocRest.2, [])
  let querySplit : List Char × List Char :=
    match splitFirstChar '?' fragSplit.1 with
    | some (a, b) => (a, b)
    | none => (fragSplit.1, [])
  ⟨strOfChars schemeRest.1, strOfChars netlocRest.1, strOfChars querySplit.1,
    strOfChars querySplit.2, strOfChars fragSplit.2⟩

example : urlparse "https://site.example/page" =
    ⟨"https", "site.example", "/page", "", ""⟩ := by decide

example : urlparse "https://example.com/a/b?foo=bar" =
    ⟨"https", "example.com", "/a/b", "foo=bar", ""⟩ := by decide

example : urlparse "notaurl" = ⟨"", "", "notaurl", "", ""⟩ := by decide

example : urlparse "ftp://x.com/a" = ⟨"ftp", "x.com", "/a", "", ""⟩ := by decide

example : pyInt? "0" = some 0 := by decide
example : pyInt? "abc" = none := by decide
example : pyInt? " 10 " = some 10 := by decide
example : pyInt? "-2" = some (-2) := by decide

/-! ### The parsed document model

`BeautifulSoup(response.content, "html.parser")` is abstracted as the
tree contents the extractor reads AFTER line 136 of the source has
decomposed every `script`, `style`, `nav`, `footer` and `header` element
(the title is read before that, but `<title>` is never one of the
decomposed tags, so the same field serves both reads).  Each field
records, in document order, exactly the attribute views the extraction
loops consume. -/

/-- One `<meta>` element: `name`, `property` and `content` attributes. -/
structure MetaTag where
  nameAttr : Option String
  propAttr : Option String
  contentAttr : Option String
deriving DecidableEq, Repr, Inhabited

/-- One `<img>` element: `src` and `alt` attributes. -/
structure ImgTag where
  srcAttr : Option String
  altAttr : Option String
deriving DecidableEq, Repr, Inhabited

/-- One `<form>` element: `action` and `method` attributes. -/
structure FormTag where
  actionAttr : Option String
  methodAttr : Option String
deriving DecidableEq, Repr, Inhabited

/-- One `<script>` element: `src` attribute.  (After the decompose pass
of source line 136 no script element remains in the tree, so in any run
of the source this list is empty; the model keeps the loop general.) -/
structure ScriptTag where
  srcAttr : Option String
deriving DecidableEq, Repr, Inhabited

/-- One `<link rel="stylesheet">` element: `href` attribute. -/
structure StyleLink where
  hrefAttr : Option String
deriving DecidableEq, Repr, Inhabited

/-- The `len(soup.find_all(tag))` counts of source lines 219-235. -/
structure TagCounts where
  h1 : Nat
  h2 : Nat
  h3 : Nat
  h4 : Nat
  h5 : Nat
  h6 : Nat
  p : Nat
  ul : Nat
  ol : Nat
  table : Nat
  div : Nat
  span : Nat
deriving DecidableEq, Repr, Inhabited

/-- The parsed-document view consumed by the extraction section of
`scrape_url` (source lines 128-254). -/
structure Doc where
  /-- `soup.find("title")`: the `get_text()` of the first title element,
  `none` when absent. -/
  titleTag : Option String
  /-- `soup.get_text()` after the decompose pass: the raw visible text
  before whitespace cleaning. -/
  rawText : String
  /-- `href` of each `soup.find_all("a", href=True)` hit, in order. -/
  anchors : List String
  /-- `soup.find("meta", attrs={"name": "description"})`: `none` when no
  such element, otherwise its `content` attribute. -/
  descTag : Option (Option String)
  /-- Same for `meta name="keywords"`. -/
  keywordsTag : Option (Option String)
  metas : List MetaTag
  imgs : List ImgTag
  formTags : List FormTag
  scriptTags : List ScriptTag
  styleLinks : List StyleLink
  counts : TagCounts
  /-- `str(soup)`: the serialized markup used for framework
  detection. -/
  markup : String
deriving DecidableEq, Repr, Inhabited

/-- The transport-level capture of a completed `session.get` call:
the `requests.Response` fields the source reads.  Header keys are stored
lowercased, matching the case-insensitive lookups the source performs. -/
structure HttpResponse where
  status : Nat
  headersL : List (String × String)
  /-- `len(response.content)` in bytes. -/
  contentBytes : Nat
  /-- `response.encoding`. -/
  encoding : Option String
  /-- `response.url` after redirects. -/
  urlFinal : String
  /-- `[r.url for r in response.history]`. -/
  history : List String
  /-- `response.elapsed.total_seconds() * 1000`, carried opaquely. -/
  elapsedMs : Nat
  cookies : List (String × String)
  doc : Doc
deriving DecidableEq, Repr, Inhabited

/-- `response.headers.get(k)` (case-insensitive dict; keys stored
lowercased here). -/
def hget (hs : List (String × String)) (k : String) : Option String :=
  (hs.find? (fun p => p.1 == k)).map Prod.snd

/-- `response.headers.get(k, d)`. -/
def hgetD (hs : List (String × String)) (k d : String) : String :=
  (hget hs k).getD d

/-! ### Exceptions and the except-clause chain -/

/-- The Python exceptions that can cross the attempt body of the retry
loop: `requests.exceptions.Timeout`, `requests.exceptions.ConnectionError`,
`requests.exceptions.HTTPError` (from `raise_for_status`), the
`ValueError` raised by `dict(query.split("&"))` during result assembly,
an `AttributeError` from `.get` on a non-dict JSON body, and any other
`Exception`. -/
inductive PyExn where
  | timeout
  | connError
  | httpError (status : Nat)
  | valueError
  | attributeError
  | other
deriving DecidableEq, Repr

/-- The four except clauses of source lines 295-331, in source order. -/
inductive ExClause where
  | timeoutClause
  | connClause
  | httpClause
  | catchAll
deriving DecidableEq, Repr

/-- Which exceptions each except clause catches (every `PyExn` is an
`Exception` subclass, so the final clause catches everything). -/
def clauseMatches : ExClause → PyExn → Bool
  | .timeoutClause, .timeout => true
  | .timeoutClause, _ => false
  | .connClause, .connError => true
  | .connClause, _ => false
  | .httpClause, .httpError _ => true
  | .httpClause, _ => false
  | .catchAll, _ => true

/-- The clause order of the source. -/
def exceptChain : List ExClause :=
  [.timeoutClause, .connClause, .httpClause, .catchAll]

/-- Python exception dispatch: first matching clause in source order. -/
def firstHandler (e : PyExn) : Option ExClause :=
  exceptChain.find? (fun c => clauseMatches c e)

/-! ### HTML extraction (source lines 128-293) -/

/-- The f-string of lines 152/188/205/215:
`f"{parsed_url.scheme}://{parsed_url.netloc}{href}"` with
`parsed_url = urlparse(url)` (the REQUESTED url, not the final one). -/
def resolveRel (url href : String) : String :=
  (urlparse url).scheme ++ "://" ++ (urlparse url).netloc ++ href

/-- The link loop of source lines 146-154.  NOTE the source control flow:
when the href starts with `/` the branch rebinds `href` to the resolved
URL but the `links.append` call lives only in the `elif` branch, so a
`/`-prefixed href contributes nothing to the list. -/
def collectLinks (url : String) : List String → List String
  | [] => []
  | href :: rest =>
    if strStartsWith href "/" then
      collectLinks url rest
    else if strStartsWith href "http://" || strStartsWith href "https://" then
      href :: collectLinks url rest
    else
      collectLinks url rest

/-- The seen-set deduplication of source lines 156-162 (first occurrence
kept, order preserved). -/
def dedupeFrom (seen : List String) : List String → List String
  | [] => []
  | l :: ls =>
    if l ∈ seen then dedupeFrom seen ls
    else l :: dedupeFrom (l :: seen) ls

/-- `unique_links` of the source. -/
def uniqueLinks (ls : List String) : List String :=
  dedupeFrom [] ls

/-- The image loop of source lines 181-189: skip empty/missing `src`,
resolve `/`-prefixed `src`, pair with the `alt` text. -/
def collectImages (url : String) : List ImgTag → List (String × String)
  | [] => []
  | img :: rest =>
    let src := img.srcAttr.getD ""
    let alt := img.altAttr.getD ""
    if src == "" then collectImages url rest
    else
      (if strStartsWith src "/" then resolveRel url src else src, alt)
        :: collectImages url rest

/-- The form loop of source lines 192-196: `action` defaulted to the
empty string, `method` defaulted to `"get"`. -/
def collectForms (fs : List FormTag) : List (String × String) :=
  fs.map (fun f => (f.actionAttr.getD "", f.methodAttr.getD "get"))

/-- The script loop of source lines 199-206. -/
def collectScripts (url : String) : List ScriptTag → List String
  | [] => []
  | s :: rest =>
    let src := s.srcAttr.getD ""
    if src == "" then collectScripts url rest
    else
      (if strStartsWith src "/" then resolveRel url src else src)
        :: collectScripts url rest

/-- The stylesheet loop of source lines 209-216. -/
def collectStylesheets (url : String) : List StyleLink → List String
  | [] => []
  | s :: rest =>
    let href := s.hrefAttr.getD ""
    if href == "" then collectStylesheets url rest
    else
      (if strStartsWith href "/" then resolveRel url href else href)
        :: collectStylesheets url rest

/-- Python `a or b` for attribute lookups returning `None`-or-string:
falsy (`None` or empty) left operand yields the right operand. -/
def pyOrStr : Option String → Option String → Option String
  | some s, b => if s == "" then b else some s
  | none, b => b

/-- Python dict insertion `m[k] = v`: overwrite in place, else append. -/
def dictIns (m : List (String × String)) (k v : String) : List (String × String) :=
  if m.any (fun p => p.1 == k) then
    m.map (fun p => if p.1 == k then (k, v) else p)
  else m ++ [(k, v)]

/-- The meta-tag loop of source lines 173-178: key is
`meta.get("name") or meta.get("property")`, kept only when both key and
content are truthy; later duplicates overwrite. -/
def collectMetaTags (acc : List (String × String)) : List MetaTag → List (String × String)
  | [] => acc
  | m :: rest =>
    match pyOrStr m.nameAttr m.propAttr, m.contentAttr with
    | some n, some c =>
      if n == "" || c == "" then collectMetaTags acc rest
      else collectMetaTags (dictIns acc n c) rest
    | _, _ => collectMetaTags acc rest

/-- The whitespace cleaning of source lines 140-143: split into lines,
strip each, further split each line at double spaces, strip the pieces,
join the non-empty pieces with single spaces. -/
def cleanTextChars (cs : List Char) : List Char :=
  let lines := (splitLinesChars cs []).map pyStripChars
  let chunks := lines.flatMap (fun line => (splitTwoSpace line []).map pyStripChars)
  List.intercalate [' '] (chunks.filter (fun c => !c.isEmpty))

/-- `text_content` after cleaning. -/
def cleanText (s : String) : String :=
  strOfChars (cleanTextChars s.data)

/-- The framework-detection flags of source lines 243-254:
case-insensitive substring tests against the serialized markup. -/
structure FrameworkFlags where
  jquery : Bool
  react : Bool
  vue : Bool
  angular : Bool
  bootstrap : Bool
  wordpress : Bool
  drupal : Bool
  joomla : Bool
  shopify : Bool
  woocommerce : Bool
deriving DecidableEq, Repr, Inhabited

/-- See `FrameworkFlags`. -/
def detectFrameworks (markup : String) : FrameworkFlags :=
  let m := strLower markup
  { jquery := pyIn "jquery" m
    react := pyIn "react" m || pyIn "jsx" m
    vue := pyIn "vue" m
    angular := pyIn "angular" m
    bootstrap := pyIn "bootstrap" m
    wordpress := pyIn "wp-" m || pyIn "wordpress" m
    drupal := pyIn "drupal" m
    joomla := pyIn "joomla" m
    shopify := pyIn "shopify" m
    woocommerce := pyIn "woocommerce" m }

/-- The derived security-header block of source lines 117-124. -/
structure SecHeaders where
  x_frame_options : String
  x_content_type_options : String
  x_xss_protection : String
  strict_transport_security : String
  content_security_policy : String
  referrer_policy : String
deriving DecidableEq, Repr, Inhabited

/-- `curl_info` of source lines 92-125. -/
structure CurlInfo where
  status_code : Nat
  content_type : String
  content_length : Nat
  encoding : Option String
  url_final : String
  redirected : Bool
  redirect_count : Nat
  redirect_chain : List String
  response_time_ms : Nat
  server : String
  date : String
  last_modified : String
  etag : String
  cache_control : String
  expires : String
  content_encoding : String
  transfer_encoding : String
  connection : String
  keep_alive : String
  all_headers : List (String × String)
  cookies : List (String × String)
  is_compressed : Bool
  is_chunked : Bool
  has_cache_headers : Bool
  security_headers : SecHeaders
deriving DecidableEq, Repr, Inhabited

/-- Build `curl_info` from the response (source lines 92-125). -/
def buildCurlInfo (r : HttpResponse) (content_type : String) : CurlInfo :=
  { status_code := r.status
    content_type := content_type
    content_length := r.contentBytes
    encoding := r.encoding
    url_final := r.urlFinal
    redirected := !r.history.isEmpty
    redirect_count := r.history.length
    redirect_chain := r.history
    response_time_ms := r.elapsedMs
    server := hgetD r.headersL "server" ""
    date := hgetD r.headersL "date" ""
    last_modified := hgetD r.headersL "last-modified" ""
    etag := hgetD r.headersL "etag" ""
    cache_control := hgetD r.headersL "cache-control" ""
    expires := hgetD r.headersL "expires" ""
    content_encoding := hgetD r.headersL "content-encoding" ""
    transfer_encoding := hgetD r.headersL "transfer-encoding" ""
    connection := hgetD r.headersL "connection" ""
    keep_alive := hgetD r.headersL "keep-alive" ""
    all_headers := r.headersL
    cookies := r.cookies
    is_compressed :=
      match hget r.headersL "content-encoding" with
      | some v => v == "gzip" || v == "deflate" || v == "br"
      | none => false
    is_chunked := hget r.headersL "transfer-encoding" == some "chunked"
    has_cache_headers :=
      (hget r.headersL "cache-control").isSome
        || (hget r.headersL "expires").isSome
        || (hget r.headersL "last-modified").isSome
    security_headers :=
      { x_frame_options := hgetD r.headersL "x-frame-options" ""
        x_content_type_options := hgetD r.headersL "x-content-type-options" ""
        x_xss_protection := hgetD r.headersL "x-xss-protection" ""
        strict_transport_security := hgetD r.headersL "strict-transport-security" ""
        content_security_policy := hgetD r.headersL "content-security-policy" ""
        referrer_policy := hgetD r.headersL "referrer-policy" "" } }

/-- The `content_analysis` block of source lines 219-240.  The four
`*_count` fields are the lengths of the extracted lists BEFORE the
`[:10]` caps applied in the returned dict. -/
structure ContentStats where
  h1 : Nat
  h2 : Nat
  h3 : Nat
  h4 : Nat
  h5 : Nat
  h6 : Nat
  paragraphs : Nat
  ul : Nat
  ol : Nat
  tables : Nat
  divs : Nat
  spans : Nat
  images_count : Nat
  forms_count : Nat
  scripts_count : Nat
  stylesheets_count : Nat
deriving DecidableEq, Repr, Inhabited

/-- The dict returned by a successful `scrape_url` attempt
(source lines 258-293), field for field. -/
structure ScrapeResult where
  url : String
  title : String
  description : String
  keywords : String
  content : String
  links : List String
  content_length : Nat
  links_count : Nat
  status_code : Nat
  content_type : String
  scraped_at : Nat
  scraper_version : String
  scraper_features : List String
  curl_info : CurlInfo
  meta_tags : List (String × String)
  images : List (String × String)
  forms : List (String × String)
  scripts : List String
  stylesheets : List String
  content_analysis : ContentStats
  framework_detection : FrameworkFlags
  word_count : Nat
  character_count : Nat
  has_ssl : Bool
  domain : String
  path : String
  query_params : List (Char × Char)
deriving DecidableEq, Repr, Inhabited

/-- A well-formed element of Python `dict(...)` construction: an iterable
of length two.  A two-character string gives a (key, value) pair of
one-character strings, modelled as a `Char` pair. -/
def pairOfChars? : List Char → Option (Char × Char)
  | [a, b] => some (a, b)
  | _ => none

/-- Python dict insertion for the query-parameter dict. -/
def charDictIns (m : List (Char × Char)) (k v : Char) : List (Char × Char) :=
  if m.any (fun p => p.1 == k) then
    m.map (fun p => if p.1 == k then (k, v) else p)
  else m ++ [(k, v)]

/-- `dict(seq)` over the `&`-split pieces: any piece whose length is not
exactly two raises `ValueError` (dictionary update sequence element of
wrong length), which is what `dict(urlparse(url).query.split("&"))` does
on virtually every real query string. -/
def buildQueryDict (acc : List (Char × Char)) : List (List Char) → Except PyExn (List (Char × Char))
  | [] => .ok acc
  | part :: rest =>
    match pairOfChars? part with
    | some (k, v) => buildQueryDict (charDictIns acc k v) rest
    | none => .error .valueError

deriving instance DecidableEq for Except

/-- Source line 292:
`dict(urlparse(url).query.split("&")) if urlparse(url).query else {}`. -/
def queryParams? (q : String) : Except PyExn (List (Char × Char)) :=
  if q == "" then .ok []
  else buildQueryDict [] (splitOnChar '&' q.data [])

example : queryParams? "" = .ok [] := by decide
example : queryParams? "foo=bar" = .error .valueError := by decide
example : queryParams? "ab" = .ok [('a', 'b')] := by decide

/-- The whole post-`raise_for_status` body of a successful attempt
(source lines 86-293): build `curl_info`, extract, and assemble the
returned dict.  The only raising subexpression is the `query_params`
entry, so the assembly is `Except`-valued.  `now` is the `time.time()`
reading taken at source line 269. -/
def assembleResult (r : HttpResponse) (url : String) (now : Nat) :
    Except PyExn ScrapeResult :=
  let content_type := strLower (hgetD r.headersL "content-type" "")
  let curl := buildCurlInfo r content_type
  let title :=
    match r.doc.titleTag with
    | some t => pyStrip t
    | none => "No title found"
  let t := cleanText r.doc.rawText
  let uniq := uniqueLinks (collectLinks url r.doc.anchors)
  let description :=
    match r.doc.descTag with
    | some c => c.getD ""
    | none => ""
  let keywords :=
    match r.doc.keywordsTag with
    | some c => c.getD ""
    | none => ""
  let metaTags := collectMetaTags [] r.doc.metas
  let images := collectImages url r.doc.imgs
  let forms := collectForms r.doc.formTags
  let scripts := collectScripts url r.doc.scriptTags
  let stylesheets := collectStylesheets url r.doc.styleLinks
  let stats : ContentStats :=
    { h1 := r.doc.counts.h1, h2 := r.doc.counts.h2, h3 := r.doc.counts.h3
      h4 := r.doc.counts.h4, h5 := r.doc.counts.h5, h6 := r.doc.counts.h6
      paragraphs := r.doc.counts.p, ul := r.doc.counts.ul, ol := r.doc.counts.ol
      tables := r.doc.counts.table, divs := r.doc.counts.div
      spans := r.doc.counts.span
      images_count := images.length, forms_count := forms.length
      scripts_count := scripts.length, stylesheets_count := stylesheets.length }
  let fw := detectFrameworks r.doc.markup
  match queryParams? (urlparse url).query with
  | .error e => .error e
  | .ok qp =>
    .ok
      { url := url
        title := title
        description := description
        keywords := keywords
        content := if strLen t > 2000 then strTake t 2000 ++ "..." else t
        links := uniq.take 15
        content_length := strLen t
        links_count := uniq.length
        status_code := r.status
        content_type := content_type
        scraped_at := now
        scraper_version := "2.0"
        scraper_features :=
          ["anti-bot-protection", "realistic-headers", "retry-logic",
            "rate-limiting-handling"]
        curl_info := curl
        meta_tags := metaTags
        images := images.take 10
        forms := forms
        scripts := scripts.take 10
        stylesheets := stylesheets.take 10
        content_analysis := stats
        framework_detection := fw
        word_count := pyWordCount t
        character_count := strLen t
        has_ssl := strStartsWith url "https://"
        domain := (urlparse url).netloc
        path := (urlparse url).path
        query_params := qp }

/-! ### The fetch engine (source lines 59-333) -/

/-- The outcome of one `session.get` call: a captured response, or one of
the exception classes the except chain distinguishes. -/
inductive FetchResult where
  | resp (r : HttpResponse)
  | timeoutExc
  | connExc
  | otherExc
deriving DecidableEq, Repr, Inhabited

/-- Through which `return` statement (or loop fall-through) the function
left the attempt loop. -/
inductive ExitKind where
  | success (r : ScrapeResult)
  /-- `return None` at source line 302 (all attempts timed out). -/
  | timeoutFail
  /-- `return None` at source line 311 (connection attempts exhausted). -/
  | connFail
  /-- `return None` at source line 321 (403/401, immediate). -/
  | forbiddenFail
  /-- `return None` at source line 323 (other HTTP error, immediate). -/
  | httpErrorFail
  /-- `return None` at source line 331 (unexpected error, exhausted). -/
  | unknownFail
  /-- `return None` at source line 333 (for-loop fell through). -/
  | exhausted
  /-- An exception escaped the except chain (shown impossible below). -/
  | uncaught (e : PyExn)
deriving DecidableEq, Repr

/-- What an except clause decides to do with the current attempt. -/
inductive HandlerStep where
  /-- `time.sleep(random.uniform(lo, hi))` then `continue`. -/
  | sleepRetry (tier : Nat × Nat)
  /-- `return None` through the given exit. -/
  | fail (k : ExitKind)
  /-- No clause matched; the exception propagates. -/
  | unhandled
deriving Repr

/-- The except chain of source lines 295-331 applied to a raised
exception, given the current 0-based `attempt` index and `max_retries`.
Note that the 429 branch (lines 315-318) sleeps and continues without
checking whether attempts remain. -/
def dispatch (e : PyExn) (attempt : Nat) (max_retries : Int) : HandlerStep :=
  match firstHandler e with
  | some .timeoutClause =>
    if (attempt : Int) < max_retries - 1 then .sleepRetry (2, 5)
    else .fail .timeoutFail
  | some .connClause =>
    if (attempt : Int) < max_retries - 1 then .sleepRetry (3, 7)
    else .fail .connFail
  | some .httpClause =>
    match e with
    | .httpError status =>
      if status == 429 then .sleepRetry (10, 20)
      else if status == 403 || status == 401 then .fail .forbiddenFail
      else .fail .httpErrorFail
    | _ => .unhandled
  | some .catchAll =>
    if (attempt : Int) < max_retries - 1 then .sleepRetry (1, 3)
    else .fail .unknownFail
  | none => .unhandled

/-- The try body of one attempt (source lines 74-293): the fetch outcome
becomes either a raised exception, an `HTTPError` from
`raise_for_status` (any 4xx/5xx status), or the assembled result. -/
def attemptBody (f : FetchResult) (url : String) (now : Nat) :
    Except PyExn ScrapeResult :=
  match f with
  | .timeoutExc => .error .timeout
  | .connExc => .error .connError
  | .otherExc => .error .other
  | .resp r =>
    if 400 ≤ r.status ∧ r.status < 600 then .error (.httpError r.status)
    else assembleResult r url now

/-- The observable trace of one `scrape_url` call: how it exited, how
many attempts ran, and the `(lo, hi)` bounds of each backoff sleep in
order.  (The unconditional pre-request delay of source lines 69-71,
`random.uniform(1, 3)`, happens before the loop and is not listed.) -/
structure RunResult where
  exit : ExitKind
  attemptsMade : Nat
  sleeps : List (Nat × Nat)
deriving DecidableEq, Repr

/-- The attempt loop (`for attempt in range(max_retries)` of source line
73), unrolled on the number of remaining iterations.  `fetch n` is what
the `session.get` of attempt `n` does. -/
def scrapeGo (fetch : Nat → FetchResult) (url : String) (now : Nat)
    (max_retries : Int) : Nat → Nat → RunResult
  | _, 0 => ⟨.exhausted, 0, []⟩
  | attempt, remaining + 1 =>
    match attemptBody (fetch attempt) url now with
    | .ok res => ⟨.success res, 1, []⟩
    | .error e =>
      match dispatch e attempt max_retries with
      | .sleepRetry tier =>
        let rest := scrapeGo fetch url now max_retries (attempt + 1) remaining
        ⟨rest.exit, rest.attemptsMade + 1, tier :: rest.sleeps⟩
      | .fail k => ⟨k, 1, []⟩
      | .unhandled => ⟨.uncaught e, 1, []⟩

/-- `scrape_url(url, max_retries)` (source lines 59-333) as a function of
the fetch oracle and the `time.time()` reading.  `range(max_retries)`
iterates `max_retries.toNat` times (zero for non-positive values). -/
def scrape_url (fetch : Nat → FetchResult) (url : String) (now : Nat)
    (max_retries : Int) : RunResult :=
  scrapeGo fetch url now max_retries 0 max_retries.toNat

/-- The Python return value of `scrape_url`: the result dict on success,
`None` through every failure exit. -/
def pyReturn : ExitKind → Option ScrapeResult
  | .success r => some r
  | _ => none

/-! ### The request handler (source lines 335-465) -/

/-- What `json.loads(event["body"])` produces when the body is present
and truthy: a decode failure (caught at lines 354/406), a JSON value
that is not an object (on which `.get` raises an uncaught
`AttributeError`), or an object, of which the handler reads only the
`url` and `user_id` entries. -/
inductive JsonBody where
  | notJson
  | nonObject
  | obj (urlField : Option String) (userField : Option String)
deriving DecidableEq, Repr

/-- The query-string parameters the handler reads.  The whole structure
is `none` when `queryStringParameters` is absent or falsy (missing key,
`None`, or empty dict). -/
structure QSP where
  url : Option String
  retries : Option String
  user_id : Option String
deriving DecidableEq, Repr

/-- The inbound Lambda event, restricted to the keys the handler reads.
`body` is `none` when absent or falsy. -/
structure Event where
  httpMethod : Option String
  qsp : Option QSP
  body : Option JsonBody
deriving DecidableEq, Repr

/-- The try block of source lines 392-399: if a truthy `retries` value is
present, `max_retries = min(int(retries_param), 5)`; a non-numeric value
raises `ValueError`, caught by `pass` — in which case the `user_id`
assignment inside the same try block never executes.  Returns the pair
(`max_retries`, `user_id` as far as this stage sets it). -/
def retriesAndUser (q : QSP) : Int × Option String :=
  match q.retries with
  | none => (3, q.user_id)
  | some s =>
    if s == "" then (3, q.user_id)
    else
      match pyInt? s with
      | some n => (min n 5, q.user_id)
      | none => (3, none)

/-- Source lines 350-355: when the query-string `url` is falsy, read it
from the JSON body; a decode failure is caught and leaves the old value,
but `.get` on a non-object JSON value raises `AttributeError`. -/
def urlFromBody (v : Option String) : Option JsonBody → Except PyExn (Option String)
  | none => .ok v
  | some .notJson => .ok v
  | some .nonObject => .error .attributeError
  | some (.obj u _) => .ok u

/-- Source lines 402-407, same shape for `user_id`. -/
def userFromBody (v : Option String) : Option JsonBody → Except PyExn (Option String)
  | none => .ok v
  | some .notJson => .ok v
  | some .nonObject => .error .attributeError
  | some (.obj _ u) => .ok u

/-- The metadata keys the handler adds to the result when persisting
(source lines 446-463).  The persistence collaborator itself is out of
scope; its outcome is a parameter. -/
structure SaveMeta where
  project_id : Option String
  saved_to_dynamodb : Bool
  dynamodb_error : Option String
deriving DecidableEq, Repr

/-- Source lines 446-463: success, a `False` return, or an exception
from the persistence call, reported as advisory metadata. -/
def saveMetaOf (projectId : String) (saveOutcome : Except String Bool) : SaveMeta :=
  match saveOutcome with
  | .ok true => ⟨some projectId, true, none⟩
  | .ok false => ⟨none, false, some "Failed to save data"⟩
  | .error e => ⟨none, false, some e⟩

/-- Which response body `create_response` was handed (the JSON payloads
themselves are fixed dictionaries; only their identity matters here). -/
inductive RespBody where
  | optionsOk
  | missingUrl
  | invalidUrlFormat
  | invalidScheme
  | missingUserId
  | scrapeFailed
  | scrapeOk (r : ScrapeResult) (meta : SaveMeta)
deriving DecidableEq, Repr

/-- A `create_response` value: status code plus body tag. -/
structure HResponse where
  statusCode : Nat
  body : RespBody
deriving DecidableEq, Repr

/-- The observable outcome of `lambda_handler`: the returned response
(or an escaped exception) and the argument list of every `scrape_url`
invocation it performed. -/
structure HandlerResult where
  response : Except PyExn HResponse
  scrapeCalls : List (String × Int)
deriving DecidableEq, Repr

/-- The `(max_retries, user_id)` pair after the query-parameter stage of
source lines 388-399 (`(3, None)` when there are no query-string
parameters). -/
def muOf (q : Option QSP) : Int × Option String :=
  match q with
  | some qq => retriesAndUser qq
  | none => ((3 : Int), none)

/-- The user-identifier resolution of source lines 401-407: keep a
truthy query-stage value, otherwise consult the JSON body. -/
def userResolve (q : Option QSP) (b : Option JsonBody) :
    Except PyExn (Option String) :=
  if pyTruthy (muOf q).2 then .ok (muOf q).2
  else userFromBody (muOf q).2 b

/-- The value `userResolve` succeeds with when the body is not a
non-object JSON value. -/
def resolvedUser (q : Option QSP) (b : Option JsonBody) : Option String :=
  if pyTruthy (muOf q).2 then (muOf q).2
  else
    match b with
    | some (.obj _ u) => u
    | _ => (muOf q).2

/-- Source lines 409-465 from the `user_id` check on: reject a falsy
identifier with 400, otherwise run the scrape and wrap its outcome
(500 for `None`, 200 with persistence metadata for a result dict). -/
def userStage (url : String) (mr : Int) (uid? : Option String)
    (fetch : Nat → FetchResult) (now : Nat) (projectId : String)
    (saveOutcome : Except String Bool) : HandlerResult :=
  if !pyTruthy uid? then ⟨.ok ⟨400, .missingUserId⟩, []⟩
  else
    let run := scrape_url fetch url now mr
    match run.exit with
    | .success r =>
      ⟨.ok ⟨200, .scrapeOk { r with scraped_at := now }
          (saveMetaOf projectId saveOutcome)⟩, [(url, mr)]⟩
    | .uncaught e => ⟨.error e, [(url, mr)]⟩
    | _ => ⟨.ok ⟨500, .scrapeFailed⟩, [(url, mr)]⟩

/-- Source lines 388-465: resolve retries and user identifier, then run
the user stage (an `AttributeError` from a non-object body
propagates). -/
def retriesStage (url : String) (q : Option QSP) (b : Option JsonBody)
    (fetch : Nat → FetchResult) (now : Nat) (projectId : String)
    (saveOutcome : Except String Bool) : HandlerResult :=
  match userResolve q b with
  | .error e => ⟨.error e, []⟩
  | .ok uid? => userStage url (muOf q).1 uid? fetch now projectId saveOutcome

/-- The URL intake of source lines 343-355: query-string value when
truthy, otherwise the JSON body (where a non-object body raises). -/
def urlResolve (q : Option QSP) (b : Option JsonBody) :
    Except PyExn (Option String) :=
  if pyTruthy (q.bind QSP.url) then .ok (q.bind QSP.url)
  else urlFromBody (q.bind QSP.url) b

/-- The value `urlResolve` succeeds with when the body is not a
non-object JSON value. -/
def resolvedUrl (q : Option QSP) (b : Option JsonBody) : Option String :=
  if pyTruthy (q.bind QSP.url) then q.bind QSP.url
  else
    match b with
    | some (.obj u _) => u
    | _ => q.bind QSP.url

/-- Source lines 357-386 from the missing-URL check on: 400 for a falsy
URL, 400 for a missing scheme or host (the `raise ValueError` of line
372 caught at line 381), 400 for a scheme outside http/https, then the
retries/user stage. -/
def urlStage (url? : Option String) (q : Option QSP) (b : Option JsonBody)
    (fetch : Nat → FetchResult) (now : Nat) (projectId : String)
    (saveOutcome : Except String Bool) : HandlerResult :=
  if !pyTruthy url? then ⟨.ok ⟨400, .missingUrl⟩, []⟩
  else
    let url := url?.getD ""
    let p := urlparse url
    if p.scheme == "" || p.netloc == "" then ⟨.ok ⟨400, .invalidUrlFormat⟩, []⟩
    else if !(p.scheme == "http" || p.scheme == "https") then
      ⟨.ok ⟨400, .invalidScheme⟩, []⟩
    else retriesStage url q b fetch now projectId saveOutcome

/-- `lambda_handler(event, context)` (source lines 335-465).  `fetch` and
`now` parametrise the network and clock exactly as in `scrape_url`;
`projectId` stands for `generate_project_id()` and `saveOutcome` for the
`save_scrape_data` call of the persistence collaborator. -/
def lambda_handler (ev : Event) (fetch : Nat → FetchResult) (now : Nat)
    (projectId : String) (saveOutcome : Except String Bool) : HandlerResult :=
  if ev.httpMethod == some "OPTIONS" then ⟨.ok ⟨200, .optionsOk⟩, []⟩
  else
    match urlResolve ev.qsp ev.body with
    | .error e => ⟨.error e, []⟩
    | .ok url? => urlStage url? ev.qsp ev.body fetch now projectId saveOutcome

/-- The `url` value the handler ends up validating, assuming the body is
not a non-object JSON value. -/
def effUrl (ev : Event) : Option String :=
  resolvedUrl ev.qsp ev.body

/-- The `user_id` value the handler ends up checking, under the same
proviso. -/
def effUser (ev : Event) : Option String :=
  resolvedUser ev.qsp ev.body

/-- A request the validation layer must reject: missing URL, missing
scheme or host, a scheme outside http/https, or a missing user
identifier. -/
def badRequest (ev : Event) : Prop :=
  pyTruthy (effUrl ev) = false
    ∨ (urlparse ((effUrl ev).getD "")).scheme = ""
    ∨ (urlparse ((effUrl ev).getD "")).netloc = ""
    ∨ ((urlparse ((effUrl ev).getD "")).scheme ≠ "http"
        ∧ (urlparse ((effUrl ev).getD "")).scheme ≠ "https")
    ∨ pyTruthy (effUser ev) = false

instance (ev : Event) : Decidable (badRequest ev) := by
  unfold badRequest
  infer_instance

/-! ### Concrete fixtures for witnesses and counterexamples -/

/-- An empty parsed document. -/
def docEmpty : Doc :=
  { titleTag := none, rawText := "", anchors := [], descTag := none
    keywordsTag := none, metas := [], imgs := [], formTags := []
    scriptTags := [], styleLinks := []
    counts := ⟨0, 0, 0, 0, 0, 0, 0, 0, 0, 0, 0, 0⟩, markup := "" }

/-- A minimal 200 response with an empty document. -/
def respOk : HttpResponse :=
  { status := 200, headersL := [("content-type", "text/html")]
    contentBytes := 0, encoding := some "utf-8"
    urlFinal := "https://site.example/page", history := [], elapsedMs := 5
    cookies := [], doc := docEmpty }

/-- A 429 response (body irrelevant: `raise_for_status` throws first). -/
def resp429 : HttpResponse :=
  { respOk with status := 429 }

/-- A 403 response. -/
def resp403 : HttpResponse :=
  { respOk with status := 403 }

/-- A 401 response. -/
def resp401 : HttpResponse :=
  { respOk with status := 401 }

/-- The document of the link-extraction example of the spec: anchors
`/about`, `https://x.com/a` and a duplicate `https://x.com/a`. -/
def docLinks : Doc :=
  { docEmpty with
    anchors := ["/about", "https://x.com/a", "https://x.com/a"] }

/-- The 200 response carrying `docLinks`. -/
def respLinks : HttpResponse :=
  { respOk with doc := docLinks }

/-- A fetch oracle that times out on every attempt. -/
def fetchTimeout : Nat → FetchResult := fun _ => .timeoutExc

/-- A fetch oracle that answers 429 on every attempt. -/
def fetch429 : Nat → FetchResult := fun _ => .resp resp429

/-- A fetch oracle that answers 429 first, then 200. -/
def fetch429Then200 : Nat → FetchResult := fun n =>
  if n == 0 then .resp resp429 else .resp respOk

/-- The result assembled from `respOk` (used to name the success value
of witnesses; `Inhabited` covers the impossible error branch). -/
def resOk : ScrapeResult :=
  match assembleResult respOk "https://site.example/page" 0 with
  | .ok r => r
  | .error _ => default

/-! ### Claim C1 -/

/-- C1: code_bug evaluation.  On HTML whose anchors are `/about`,
`https://x.com/a` and a duplicate `https://x.com/a`, fetched as
`https://site.example/page`, the extracted link list is
`["https://x.com/a"]`, not the claimed
`["https://site.example/about", "https://x.com/a"]`: the branch of
source lines 150-152 computes the resolved URL for a `/`-prefixed href
but never appends it (the `links.append` sits only in the `elif`
branch), so resolved relative links are dropped. -/
theorem C1_relative_links_dropped :
    (match assembleResult respLinks "https://site.example/page" 0 with
      | .ok r => r.links
      | .error _ => []) = ["https://x.com/a"] ∧
    uniqueLinks (collectLinks "https://site.example/page"
        ["/about", "https://x.com/a", "https://x.com/a"]) =
      ["https://x.com/a"] ∧
    ["https://x.com/a"] ≠ ["https://site.example/about", "https://x.com/a"] := by
  decide

/-! ### Claim C2 -/

/-- C2: code_bug evaluation.  A URL carrying an ordinary query string
makes the result assembly of a successfully fetched 2xx response raise
`ValueError` (source line 292 builds
`dict(urlparse(url).query.split("&"))`, and `dict` rejects any
`&`-component whose length is not exactly 2), so the extraction is not
best-effort: the catch-all handler consumes the error and the attempt
fails (retrying, then returning `None`) instead of producing an
`ExtractionResult`. -/
theorem C2_extraction_fails_on_query_string :
    assembleResult respOk "https://site.example/page?foo=bar" 0 =
      .error .valueError ∧
    scrape_url (fun _ => .resp respOk) "https://site.example/page?foo=bar" 0 1 =
      ⟨.unknownFail, 1, []⟩ ∧
    scrape_url (fun _ => .resp respOk) "https://site.example/page?foo=bar" 0 2 =
      ⟨.unknownFail, 2, [(1, 3)]⟩ := by
  decide

/-! ### Claim C8 -/

/-- Projection of an `Except` success value. -/
def exOk {ε α : Type} : Except ε α → Option α
  | .ok a => some a
  | .error _ => none

/-- Zero out the `scraped_at` clock reading of an assembled result. -/
def clearTimestamp (r : ScrapeResult) : ScrapeResult :=
  { r with scraped_at := 0 }

/-- C8: counterexample.  Byte-identical response and URL do not give
byte-identical assembled results: `scraped_at` is `time.time()` read at
assembly (source line 269), so two runs at clock readings 0 and 1
differ. -/
theorem C8_counterexample :
    exOk (assembleResult respOk "https://site.example/page" 0) ≠
      exOk (assembleResult respOk "https://site.example/page" 1) := by
  decide

/-- C8: amended claim.  With the clock reading factored out, the
extractor-and-assembly stage is deterministic: results of two runs on
the same response and URL agree on every field except `scraped_at`. -/
theorem C8_deterministic_modulo_timestamp (r : HttpResponse) (url : String)
    (t1 t2 : Nat) :
    Except.map clearTimestamp (assembleResult r url t1) =
      Except.map clearTimestamp (assembleResult r url t2) := by
  unfold assembleResult
  cases hq : queryParams? (urlparse url).query <;>
    simp [hq, Except.map, clearTimestamp]

/-! ### Claim C3 -/

/-- The attempt loop makes no iteration when none remain. -/
theorem scrapeGo_zero (fetch : Nat → FetchResult) (url : String) (now : Nat)
    (mr : Int) (attempt : Nat) :
    scrapeGo fetch url now mr attempt 0 = ⟨.exhausted, 0, []⟩ := rfl

/-- One-step unfolding of the attempt loop. -/
theorem scrapeGo_succ (fetch : Nat → FetchResult) (url : String) (now : Nat)
    (mr : Int) (attempt remaining : Nat) :
    scrapeGo fetch url now mr attempt (remaining + 1) =
      match attemptBody (fetch attempt) url now with
      | .ok res => ⟨.success res, 1, []⟩
      | .error e =>
        match dispatch e attempt mr with
        | .sleepRetry tier =>
          let rest := scrapeGo fetch url now mr (attempt + 1) remaining
          ⟨rest.exit, rest.attemptsMade + 1, tier :: rest.sleeps⟩
        | .fail k => ⟨k, 1, []⟩
        | .unhandled => ⟨.uncaught e, 1, []⟩ := rfl

/-- Attempt-loop invariant for an always-timing-out fetch: from attempt
index `attempt` with `remaining + 1` iterations left and
`attempt + remaining + 1 = max_retries`, the loop runs all remaining
iterations, sleeps the `(2, 5)` tier between consecutive attempts only,
and leaves through the timeout `return None`. -/
theorem scrapeGo_all_timeout (fetch : Nat → FetchResult) (url : String)
    (now : Nat) (mr : Int) (h : ∀ i, fetch i = .timeoutExc) :
    ∀ (remaining attempt : Nat), (attempt : Int) + (remaining : Int) + 1 = mr →
      scrapeGo fetch url now mr attempt (remaining + 1) =
        ⟨.timeoutFail, remaining + 1, List.replicate remaining (2, 5)⟩ := by
  intro remaining
  induction remaining with
  | zero =>
    intro attempt hinv
    have hc : ¬((attempt : Int) < mr - 1) := by omega
    rw [scrapeGo_succ]
    simp [h, attemptBody, dispatch, firstHandler, exceptChain, clauseMatches, hc]
  | succ k ih =>
    intro attempt hinv
    have hc : (attempt : Int) < mr - 1 := by push_cast at hinv ⊢; omega
    have hrec := ih (attempt + 1) (by push_cast at hinv ⊢; omega)
    rw [scrapeGo_succ]
    simp [h, attemptBody, dispatch, firstHandler, exceptChain, clauseMatches, hc,
      hrec, List.replicate_succ]

/-- C3: when every attempt times out, `scrape_url` makes exactly
`max_retries` attempts, sleeps a `random.uniform(2, 5)` delay between
consecutive attempts and not after the last one, and returns `None`
through the all-timed-out exit of source line 302. -/
theorem C3_all_timeouts_exhaust_retries (fetch : Nat → FetchResult)
    (url : String) (now : Nat) (mr : Int) (hmr : 1 ≤ mr)
    (h : ∀ i, fetch i = .timeoutExc) :
    scrape_url fetch url now mr =
      ⟨.timeoutFail, mr.toNat, List.replicate (mr.toNat - 1) (2, 5)⟩ ∧
    pyReturn (scrape_url fetch url now mr).exit = none := by
  obtain ⟨k, hk⟩ : ∃ k, mr.toNat = k + 1 := ⟨mr.toNat - 1, by omega⟩
  have hrun := scrapeGo_all_timeout fetch url now mr h k 0 (by omega)
  rw [scrape_url, hk]
  rw [hrun]
  refine ⟨?_, rfl⟩
  have : k + 1 - 1 = k := by omega
  rw [this]

/-- C3 witness at `max_retries = 3`. -/
theorem C3_witness :
    (1 : Int) ≤ 3 ∧
    scrape_url fetchTimeout "https://site.example/page" 0 3 =
      ⟨.timeoutFail, (3 : Int).toNat,
        List.replicate ((3 : Int).toNat - 1) (2, 5)⟩ :=
  ⟨by decide,
    (C3_all_timeouts_exhaust_retries fetchTimeout "https://site.example/page" 0 3
      (by decide) (fun _ => rfl)).1⟩

/-! ### Claim C4 -/

/-- C4: a first attempt answered with HTTP 403 or 401 makes the whole
fetch fail immediately for every `max_retries` value admitting an
attempt: exactly 1 attempt, no backoff sleep, exit through the
forbidden/unauthorized `return None` of source line 321. -/
theorem C4_forbidden_fails_immediately (fetch : Nat → FetchResult)
    (url : String) (now : Nat) (mr : Int) (r : HttpResponse) (hmr : 1 ≤ mr)
    (hf : fetch 0 = .resp r) (hs : r.status = 403 ∨ r.status = 401) :
    scrape_url fetch url now mr = ⟨.forbiddenFail, 1, []⟩ ∧
    pyReturn (scrape_url fetch url now mr).exit = none := by
  obtain ⟨k, hk⟩ : ∃ k, mr.toNat = k + 1 := ⟨mr.toNat - 1, by omega⟩
  rw [scrape_url, hk, scrapeGo_succ]
  rcases hs with hs | hs <;>
    simp [hf, attemptBody, hs, dispatch, firstHandler, exceptChain,
      clauseMatches, pyReturn]

/-- C4 witness: a 403 on the first attempt with `max_retries = 5`. -/
theorem C4_witness :
    (1 : Int) ≤ 5 ∧ (resp403.status = 403 ∨ resp403.status = 401) ∧
    scrape_url (fun _ => .resp resp403) "https://site.example/page" 0 5 =
      ⟨.forbiddenFail, 1, []⟩ :=
  ⟨by decide, Or.inl rfl,
    (C4_forbidden_fails_immediately (fun _ => .resp resp403)
      "https://site.example/page" 0 5 resp403 (by decide) rfl (Or.inl rfl)).1⟩

/-! ### Claim C5 -/

/-- C5: counterexample.  With `max_retries = 1` and a 429 on the (only)
attempt, no attempts remain, yet the engine still sleeps the
`random.uniform(10, 20)` backoff — the 429 branch of source lines
315-318 sleeps and `continue`s without checking whether attempts
remain — and then fails through the loop fall-through of line 333, not
through a dedicated rate-limit return.  The claim says it fails with no
sleep. -/
theorem C5_counterexample :
    scrape_url fetch429 "https://site.example/page" 0 1 =
      ⟨.exhausted, 1, [(10, 20)]⟩ ∧
    (scrape_url fetch429 "https://site.example/page" 0 1).sleeps ≠ [] := by
  decide

/-- Attempt-loop invariant for a fetch answered 429 on every attempt:
every remaining iteration sleeps the `(10, 20)` tier (including the
last) and the loop falls through exhausted. -/
theorem scrapeGo_all_429 (fetch : Nat → FetchResult) (url : String)
    (now : Nat) (mr : Int)
    (h : ∀ i, ∃ r, fetch i = FetchResult.resp r ∧ r.status = 429) :
    ∀ (remaining attempt : Nat),
      scrapeGo fetch url now mr attempt remaining =
        ⟨.exhausted, remaining, List.replicate remaining (10, 20)⟩ := by
  intro remaining
  induction remaining with
  | zero => intro attempt; rfl
  | succ k ih =>
    intro attempt
    obtain ⟨r, hf, hs⟩ := h attempt
    rw [scrapeGo_succ]
    simp [hf, attemptBody, hs, dispatch, firstHandler, exceptChain, clauseMatches,
      ih, List.replicate_succ]

/-- C5: amended claim.  On a 429 the engine always sleeps a
`random.uniform(10, 20)` delay and retries when attempts remain: a 429
followed by a 200 (with `max_retries ≥ 2`) succeeds after exactly 2
attempts with a single `(10, 20)` sleep; but when every attempt is
answered 429 the engine sleeps the `(10, 20)` tier after every attempt
INCLUDING the last and then fails by exhausting the loop (the generic
`return None` of line 333), rather than failing without a sleep. -/
theorem C5_rate_limit_backoff (url : String) (now : Nat) (mr : Int) :
    (∀ (fetch : Nat → FetchResult) (r1 r2 : HttpResponse) (res : ScrapeResult),
      2 ≤ mr → fetch 0 = .resp r1 → r1.status = 429 → fetch 1 = .resp r2 →
      r2.status = 200 → assembleResult r2 url now = .ok res →
      scrape_url fetch url now mr = ⟨.success res, 2, [(10, 20)]⟩) ∧
    (∀ fetch : Nat → FetchResult,
      (∀ i, ∃ r, fetch i = FetchResult.resp r ∧ r.status = 429) →
      scrape_url fetch url now mr =
        ⟨.exhausted, mr.toNat, List.replicate mr.toNat (10, 20)⟩) := by
  constructor
  · intro fetch r1 r2 res hmr h0 hs1 h1 hs2 hres
    obtain ⟨k, hk⟩ : ∃ k, mr.toNat = k + 2 := ⟨mr.toNat - 2, by omega⟩
    have h429 : attemptBody (fetch 0) url now = .error (.httpError 429) := by
      simp [h0, attemptBody, hs1]
    have hd : dispatch (.httpError 429) 0 mr = .sleepRetry (10, 20) := by
      simp [dispatch, firstHandler, exceptChain, clauseMatches]
    have hok : attemptBody (fetch 1) url now = .ok res := by
      simp [h1, attemptBody, hs2, hres]
    have hstep : scrapeGo fetch url now mr 1 (k + 1) = ⟨.success res, 1, []⟩ := by
      rw [scrapeGo_succ]
      simp [hok]
    rw [scrape_url, hk, scrapeGo_succ]
    simp [h429, hd, hstep]
  · intro fetch h
    rw [scrape_url]
    exact scrapeGo_all_429 fetch url now mr h mr.toNat 0

/-- C5 witness: 429 then 200 at `max_retries = 2`; and all-429 at
`max_retries = 1`. -/
theorem C5_witness :
    scrape_url fetch429Then200 "https://site.example/page" 0 2 =
      ⟨.success resOk, 2, [(10, 20)]⟩ :=
  (C5_rate_limit_backoff "https://site.example/page" 0 2).1 fetch429Then200
    resp429 respOk resOk (by decide) rfl rfl rfl rfl (by decide)

/-! ### Claim C6 -/

/-- C6: for every assembled result, `content` is the cleaned text
truncated at 2000 characters with a trailing ellipsis marker exactly
when the cleaned text is longer than 2000 characters (unchanged
otherwise), while `content_length` and `character_count` carry the
untruncated length and `word_count` the whitespace-delimited token
count (source lines 263, 265, 287, 288). -/
theorem C6_content_truncation (r : HttpResponse) (url : String) (now : Nat)
    (res : ScrapeResult) (h : assembleResult r url now = .ok res) :
    res.content_length = strLen (cleanText r.doc.rawText) ∧
    res.character_count = strLen (cleanText r.doc.rawText) ∧
    res.word_count = pyWordCount (cleanText r.doc.rawText) ∧
    (2000 < strLen (cleanText r.doc.rawText) →
      res.content = strTake (cleanText r.doc.rawText) 2000 ++ "...") ∧
    (strLen (cleanText r.doc.rawText) ≤ 2000 →
      res.content = cleanText r.doc.rawText) := by
  unfold assembleResult at h
  cases hq : queryParams? (urlparse url).query with
  | error e => simp [hq] at h
  | ok qp =>
    simp only [hq, Except.ok.injEq] at h
    subst h
    refine ⟨rfl, rfl, rfl, fun hgt => ?_, fun hle => ?_⟩
    · simp only [gt_iff_lt]
      rw [if_pos hgt]
    · simp only [gt_iff_lt]
      rw [if_neg (by omega)]

/-- C6 witness at the empty document (cleaned text of length 0). -/
theorem C6_witness :
    resOk.content_length = strLen (cleanText respOk.doc.rawText) ∧
    resOk.character_count = strLen (cleanText respOk.doc.rawText) ∧
    resOk.word_count = pyWordCount (cleanText respOk.doc.rawText) ∧
    (2000 < strLen (cleanText respOk.doc.rawText) →
      resOk.content = strTake (cleanText respOk.doc.rawText) 2000 ++ "...") ∧
    (strLen (cleanText respOk.doc.rawText) ≤ 2000 →
      resOk.content = cleanText respOk.doc.rawText) :=
  C6_content_truncation respOk "https://site.example/page" 0 resOk (by decide)

/-! ### Claim C9 -/

/-- C9: counterexample.  A request with `retries=0` (valid URL and
`user_id` present) is accepted, invokes the fetch engine with
`max_retries = 0`, and the engine then makes 0 attempts — the handler
only caps `min(int(retries_param), 5)` from above (source line 396), so
the used retry count is not in `[1, 5]`. -/
theorem C9_counterexample :
    lambda_handler
        ⟨some "GET", some ⟨some "https://example.com/", some "0", some "u"⟩, none⟩
        fetchTimeout 0 "p" (.ok true) =
      ⟨.ok ⟨500, .scrapeFailed⟩, [("https://example.com/", 0)]⟩ ∧
    (scrape_url fetchTimeout "https://example.com/" 0 0).attemptsMade = 0 := by
  decide

/-- C9: amended claim.  The caller-supplied retries parameter is capped
above at 5 and defaults to 3 when absent, empty, or non-numeric, but no
lower bound is enforced: a numeric value `n` is passed through as
`min(n, 5)`, so 0 or a negative value reaches the fetch engine and then
yields 0 attempts. -/
theorem C9_retries_cap_only_above (q : QSP) :
    (retriesAndUser q).1 ≤ 5 ∧
    ((q.retries = none ∨ q.retries = some "" ∨
        (∀ s, q.retries = some s → pyInt? s = none)) →
      (retriesAndUser q).1 = 3) ∧
    (∀ s n, q.retries = some s → s ≠ "" → pyInt? s = some n →
      (retriesAndUser q).1 = min n 5) := by
  unfold retriesAndUser
  cases hr : q.retries with
  | none => simp
  | some s =>
    by_cases hs : s = ""
    · subst hs
      refine ⟨by simp, by simp, ?_⟩
      intro s2 n2 hs2 hne hi2
      rw [Option.some.injEq] at hs2
      exact absurd hs2.symm hne
    · have hs' : (s == "") = false := by simp [hs]
      cases hi : pyInt? s with
      | none =>
        refine ⟨by simp [hs', hi], by simp [hs', hi], ?_⟩
        intro s2 n2 hs2 hne hi2
        rw [Option.some.injEq] at hs2
        subst hs2
        rw [hi] at hi2
        cases hi2
      | some n =>
        refine ⟨?_, ?_, ?_⟩
        · simp only [hs', Bool.false_eq_true, if_false, hi]
          exact min_le_right n 5
        · intro hcon
          rcases hcon with hcon | hcon | hcon
          · cases hcon
          · rw [Option.some.injEq] at hcon
            exact absurd hcon hs
          · have h2 := hcon s rfl
            rw [hi] at h2
            cases h2
        · intro s2 n2 hs2 hne hi2
          rw [Option.some.injEq] at hs2
          subst hs2
          rw [hi, Option.some.injEq] at hi2
          subst hi2
          simp [hs', hi]

/-- C9 witness: `retries=0` gives `min 0 5 = 0`; an absent parameter
gives the default 3. -/
theorem C9_witness :
    (retriesAndUser ⟨some "https://example.com/", some "0", some "u"⟩).1 =
      min 0 5 ∧
    (retriesAndUser ⟨none, none, some "u"⟩).1 = 3 :=
  ⟨(C9_retries_cap_only_above ⟨some "https://example.com/", some "0", some "u"⟩).2.2
      "0" 0 rfl (by decide) (by decide),
    (C9_retries_cap_only_above ⟨none, none, some "u"⟩).2.1 (Or.inl rfl)⟩

/-! ### Claim C10 -/

/-- Every raised exception is consumed by some except clause of source
lines 295-331: the final `except Exception` clause matches every
exception the attempt body can raise, and each clause either sleeps and
retries or returns `None` through one of the failure exits. -/
theorem dispatch_never_unhandled (e : PyExn) (attempt : Nat) (mr : Int) :
    (∃ tier, dispatch e attempt mr = .sleepRetry tier) ∨
    dispatch e attempt mr = .fail .timeoutFail ∨
    dispatch e attempt mr = .fail .connFail ∨
    dispatch e attempt mr = .fail .forbiddenFail ∨
    dispatch e attempt mr = .fail .httpErrorFail ∨
    dispatch e attempt mr = .fail .unknownFail := by
  cases e <;>
    simp only [dispatch, firstHandler, exceptChain, clauseMatches, List.find?] <;>
    split_ifs <;>
    simp

/-- The attempt loop never exits through the uncaught-exception marker,
from any attempt index and remaining-iteration count. -/
theorem scrapeGo_no_uncaught (fetch : Nat → FetchResult) (url : String)
    (now : Nat) (mr : Int) :
    ∀ (remaining attempt : Nat) (e : PyExn),
      (scrapeGo fetch url now mr attempt remaining).exit ≠ .uncaught e := by
  intro remaining
  induction remaining with
  | zero =>
    intro attempt e
    simp [scrapeGo_zero]
  | succ k ih =>
    intro attempt e
    rw [scrapeGo_succ]
    cases hab : attemptBody (fetch attempt) url now with
    | ok res => simp
    | error ex =>
      rcases dispatch_never_unhandled ex attempt mr with ⟨tier, hd⟩ | hd | hd | hd | hd | hd <;>
        simp [hd, ih (attempt + 1) e]

/-- C10: `scrape_url` is total at its interface: for every fetch-oracle
behaviour, URL and `max_retries` value no exception escapes the attempt
loop (the catch-all clause of source line 325 consumes anything the
fetch or the extraction raises), and the Python return value is a
result dict exactly on the success exit and `None` on every failure
path. -/
theorem C10_no_exception_escapes (fetch : Nat → FetchResult) (url : String)
    (now : Nat) (mr : Int) :
    (∀ e, (scrape_url fetch url now mr).exit ≠ .uncaught e) ∧
    ((∃ res, pyReturn (scrape_url fetch url now mr).exit = some res ∧
        (scrape_url fetch url now mr).exit = .success res) ∨
      pyReturn (scrape_url fetch url now mr).exit = none) := by
  constructor
  · intro e
    exact scrapeGo_no_uncaught fetch url now mr mr.toNat 0 e
  · cases hx : (scrape_url fetch url now mr).exit with
    | success r => exact Or.inl ⟨r, rfl, rfl⟩
    | timeoutFail => exact Or.inr rfl
    | connFail => exact Or.inr rfl
    | forbiddenFail => exact Or.inr rfl
    | httpErrorFail => exact Or.inr rfl
    | unknownFail => exact Or.inr rfl
    | exhausted => exact Or.inr rfl
    | uncaught e => exact Or.inr rfl

/-! ### Claim C7 -/

/-- C7: counterexample.  A non-preflight request with no query-string
URL whose body is valid JSON but not an object (for instance the body
string `"5"`): the URL is missing, yet the handler does not return a 400
validation response — `json.loads(event["body"]).get("url")` raises an
uncaught `AttributeError` (source line 353 only catches
`JSONDecodeError` and `KeyError`).  The fetch engine is still never
invoked. -/
theorem C7_counterexample :
    lambda_handler ⟨some "GET", none, some .nonObject⟩ fetchTimeout 0 "p" (.ok true) =
      ⟨.error .attributeError, []⟩ := by
  decide

/-- When the body is not a non-object JSON value, the URL intake
succeeds with the resolved value. -/
theorem urlResolve_ok (q : Option QSP) (b : Option JsonBody)
    (hb : b ≠ some JsonBody.nonObject) :
    urlResolve q b = .ok (resolvedUrl q b) := by
  unfold urlResolve resolvedUrl
  cases hq : pyTruthy (q.bind QSP.url)
  · cases b with
    | none => simp [hq, urlFromBody]
    | some jb =>
      cases jb with
      | notJson => simp [hq, urlFromBody]
      | nonObject => exact absurd rfl hb
      | obj u w => simp [hq, urlFromBody]
  · simp [hq]

/-- When the body is not a non-object JSON value, the user intake
succeeds with the resolved value. -/
theorem userResolve_ok (q : Option QSP) (b : Option JsonBody)
    (hb : b ≠ some JsonBody.nonObject) :
    userResolve q b = .ok (resolvedUser q b) := by
  unfold userResolve resolvedUser
  cases hq : pyTruthy (muOf q).2
  · cases b with
    | none => simp [hq, userFromBody]
    | some jb =>
      cases jb with
      | notJson => simp [hq, userFromBody]
      | nonObject => exact absurd rfl hb
      | obj u w => simp [hq, userFromBody]
  · simp [hq]

/-- A falsy resolved user identifier makes the retries/user stage answer
400 without invoking the fetch engine. -/
theorem retriesStage_userMissing (url : String) (q : Option QSP)
    (b : Option JsonBody) (fetch : Nat → FetchResult) (now : Nat)
    (projectId : String) (saveOutcome : Except String Bool)
    (hb : b ≠ some JsonBody.nonObject)
    (hu : pyTruthy (resolvedUser q b) = false) :
    retriesStage url q b fetch now projectId saveOutcome =
      ⟨.ok ⟨400, .missingUserId⟩, []⟩ := by
  unfold retriesStage
  rw [userResolve_ok q b hb]
  show userStage url (muOf q).1 (resolvedUser q b) fetch now projectId saveOutcome = _
  unfold userStage
  simp [hu]

/-- The URL stage answers 400 without invoking the fetch engine on every
validation failure. -/
theorem urlStage_rejects (url? : Option String) (q : Option QSP)
    (b : Option JsonBody) (fetch : Nat → FetchResult) (now : Nat)
    (projectId : String) (saveOutcome : Except String Bool)
    (hb : b ≠ some JsonBody.nonObject)
    (hbad : pyTruthy url? = false
      ∨ (urlparse (url?.getD "")).scheme = ""
      ∨ (urlparse (url?.getD "")).netloc = ""
      ∨ ((urlparse (url?.getD "")).scheme ≠ "http"
          ∧ (urlparse (url?.getD "")).scheme ≠ "https")
      ∨ pyTruthy (resolvedUser q b) = false) :
    (∃ bdy, (urlStage url? q b fetch now projectId saveOutcome).response =
        .ok ⟨400, bdy⟩) ∧
    (urlStage url? q b fetch now projectId saveOutcome).scrapeCalls = [] := by
  unfold urlStage
  cases hu : pyTruthy url?
  · simp [hu]
  · rcases hbad with hbad | hbad | hbad | hbad | hbad
    · rw [hu] at hbad
      cases hbad
    · have hc : ((urlparse (url?.getD "")).scheme == ""
          || (urlparse (url?.getD "")).netloc == "") = true := by
        simp [hbad]
      simp [hu, hc]
    · have hc : ((urlparse (url?.getD "")).scheme == ""
          || (urlparse (url?.getD "")).netloc == "") = true := by
        simp [hbad]
      simp [hu, hc]
    · by_cases hc : ((urlparse (url?.getD "")).scheme == ""
          || (urlparse (url?.getD "")).netloc == "") = true
      · simp [hu, hc]
      · have hc2 : ((urlparse (url?.getD "")).scheme == "http"
            || (urlparse (url?.getD "")).scheme == "https") = false := by
          simp [hbad.1, hbad.2]
        simp [hu, hc, hc2]
    · by_cases hc : ((urlparse (url?.getD "")).scheme == ""
          || (urlparse (url?.getD "")).netloc == "") = true
      · simp [hu, hc]
      · by_cases hc2 : ((urlparse (url?.getD "")).scheme == "http"
            || (urlparse (url?.getD "")).scheme == "https") = true
        · have hrs := retriesStage_userMissing (url?.getD "") q b fetch now
            projectId saveOutcome hb hbad
          simp [hu, hc, hc2, hrs]
        · simp [hu, hc, hc2]

/-- C7: amended claim.  For every non-preflight request (`httpMethod ≠
OPTIONS`) whose body, when present, is either undecodable JSON or a
JSON object: if the resolved URL is missing, lacks a scheme or host, or
has a scheme outside http/https, or the resolved user identifier is
missing, the handler returns a 400 validation response and the fetch
engine is never invoked.  (A body decoding to a non-object JSON value
instead raises an uncaught AttributeError, per the counterexample; the
fetch engine is never invoked in that case either.) -/
theorem C7_validation_rejects (ev : Event) (fetch : Nat → FetchResult)
    (now : Nat) (projectId : String) (saveOutcome : Except String Bool)
    (hm : ev.httpMethod ≠ some "OPTIONS")
    (hb : ev.body ≠ some JsonBody.nonObject)
    (hbad : badRequest ev) :
    (∃ bdy, (lambda_handler ev fetch now projectId saveOutcome).response =
        .ok ⟨400, bdy⟩) ∧
    (lambda_handler ev fetch now projectId saveOutcome).scrapeCalls = [] := by
  have hm2 : (ev.httpMethod == some "OPTIONS") = false := by
    rw [beq_eq_false_iff_ne]
    exact hm
  unfold badRequest effUrl effUser at hbad
  unfold lambda_handler
  rw [urlResolve_ok ev.qsp ev.body hb]
  simp only [hm2, Bool.false_eq_true, if_false]
  exact urlStage_rejects (resolvedUrl ev.qsp ev.body) ev.qsp ev.body fetch now
    projectId saveOutcome hb hbad

/-- C7 witness: a request with an ftp URL and a user identifier is
rejected with 400 and no fetch. -/
theorem C7_witness :
    (∃ bdy, (lambda_handler ⟨some "GET", some ⟨some "ftp://x.com/a", none, some "u"⟩, none⟩
        fetchTimeout 0 "p" (.ok true)).response = .ok ⟨400, bdy⟩) ∧
    (lambda_handler ⟨some "GET", some ⟨some "ftp://x.com/a", none, some "u"⟩, none⟩
        fetchTimeout 0 "p" (.ok true)).scrapeCalls = [] :=
  C7_validation_rejects ⟨some "GET", some ⟨some "ftp://x.com/a", none, some "u"⟩, none⟩
    fetchTimeout 0 "p" (.ok true) (by decide) (by decide) (by decide)
